import Mathlib

/-!
Shallow embedding of the bellt request-routing layer (src/bellt.go).

Strings are processed with structurally recursive (fuel-based) char-list
functions so that every definition evaluates by kernel reduction.  The Go
code applies `regexp` with the literal route prefix as the pattern and with
the fixed pattern for variable markers; both are modelled as literal
substring operations, which coincides with the regex semantics for the
word-and-slash route strings this library manipulates (route prefixes
contain no regex metacharacters).
-/

namespace Bellt

/-! ### Char-list string utilities (kernel-reducible) -/

/-- If `pat` is a leading run of `l`, return the remainder of `l`; otherwise `none`.
Used to model leftmost literal matching of Go's `regexp`/`strings` helpers. -/
def dropPre : List Char → List Char → Option (List Char)
  | [], l => some l
  | _, [] => none
  | p :: pt, c :: ct => if c = p then dropPre pt ct else none

/-- Fueled splitter: splits `l` at each non-overlapping leftmost occurrence of
`sep`, like Go's `strings.Split` / `regexp.Split` on a literal pattern.
`acc` holds the current piece reversed; `fuel` bounds the recursion and is
instantiated with `l.length` (an upper bound on the number of steps). -/
def splitOnAuxL (sep : List Char) : Nat → List Char → List Char → List (List Char)
  | _, [], acc => [acc.reverse]
  | 0, l, acc => [acc.reverse ++ l]
  | fuel + 1, c :: rest, acc =>
    match dropPre sep (c :: rest) with
    | some r => acc.reverse :: splitOnAuxL sep fuel r []
    | none => splitOnAuxL sep fuel rest (c :: acc)

/-- Split `l` on every occurrence of `sep` (empty separator: no split,
mirroring the guarded uses in the source). -/
def splitOnL (l sep : List Char) : List (List Char) :=
  if sep = [] then [l] else splitOnAuxL sep l.length l []

/-- Fueled global replacement of the literal `pat` by `rep`, modelling
`strings.Replace(s, pat, rep, -1)`. `pat` is never empty at the call site
(it is a brace-delimited variable marker). -/
def replaceAllAux (pat rep : List Char) : Nat → List Char → List Char
  | _, [] => []
  | 0, l => l
  | fuel + 1, c :: rest =>
    match dropPre pat (c :: rest) with
    | some r => rep ++ replaceAllAux pat rep fuel r
    | none => c :: replaceAllAux pat rep fuel rest

/-- `strings.Replace(s, pat, rep, -1)` on `String`s. -/
def replaceAllStr (s pat rep : String) : String :=
  String.mk (replaceAllAux pat.toList rep.toList s.toList.length s.toList)

/-- Go's `\w` character class (ASCII word characters). -/
def isWordChar (c : Char) : Bool := c.isAlphanum || c = '_'

/-- After an opening brace, consume word characters until a closing brace:
on success return the variable name and the remaining characters.
Models the `(\w*)}` tail of the marker pattern. -/
def matchVarInner : List Char → List Char → Option (List Char × List Char)
  | [], _ => none
  | c :: rest, acc =>
    if c = '\x7d' then some (acc.reverse, rest)
    else if isWordChar c then matchVarInner rest (c :: acc) else none

/-- Try to match the marker pattern (an open brace, word characters, a close
brace) at the head of `l`; on success return the enclosed name and the rest. -/
def matchVarAt : List Char → Option (List Char × List Char)
  | c :: rest => if c = '\x7b' then matchVarInner rest [] else none
  | [] => none

/-- The characters of `l` strictly before the leftmost variable marker;
models `rgx.Split(path, -1)[0]` for the marker pattern. -/
def beforeFirstVar : List Char → List Char
  | [] => []
  | c :: rest =>
    match matchVarAt (c :: rest) with
    | some _ => []
    | none => c :: beforeFirstVar rest

/-- Fueled scan for all non-overlapping leftmost variable markers; each hit
yields the pair (whole marker text, enclosed name), mirroring the submatch
rows of `rgx.FindAllStringSubmatch(path, -1)`. -/
def findAllVarsFuel : Nat → List Char → List (String × String)
  | _, [] => []
  | 0, _ => []
  | fuel + 1, c :: rest =>
    match matchVarAt (c :: rest) with
    | some (name, r) =>
      (String.mk ('\x7b' :: (name ++ ['\x7d'])), String.mk name) :: findAllVarsFuel fuel r
    | none => findAllVarsFuel fuel rest

/-- All variable markers of `l`, in order. -/
def findAllVars (l : List Char) : List (String × String) :=
  findAllVarsFuel l.length l

/-- Strip a single leading slash; models `ReplaceAllString` with the
anchored start pattern (paths contain no newline). -/
def stripStartSlash : List Char → List Char
  | '/' :: rest => rest
  | l => l

/-- Strip a single trailing slash; models `ReplaceAllString` with the
anchored end pattern (paths contain no newline). -/
def stripEndSlash (l : List Char) : List Char :=
  match l.reverse with
  | '/' :: rest => rest.reverse
  | _ => l

/-! ### Data model (src/bellt.go structs) -/

/-- Mirror of `http.Request` at the granularity the router observes: the
method, the URL path, and the request-scoped context value chain (most
recently added entry first, as `context.WithValue` lookup proceeds from the
innermost context outwards). -/
structure Request where
  method : String
  urlPath : String
  ctx : List (String × String)

/-- Mirror of the observable effect on `http.ResponseWriter`: the written
status (Go records the first `WriteHeader`, and an implicit 200 on the first
`Write`), the accumulated body, and the Content-Type header. -/
structure Resp where
  status : Option Nat
  body : String
  contentType : Option String
deriving DecidableEq

def Resp.writeHeader (r : Resp) (code : Nat) : Resp :=
  match r.status with
  | none => { r with status := some code }
  | some _ => r

def Resp.write (r : Resp) (s : String) : Resp :=
  { r with status := some (r.status.getD 200), body := r.body ++ s }

def Resp.setContentType (r : Resp) (v : String) : Resp :=
  { r with contentType := some v }

/-- A fresh response writer, as handed to a handler per request. -/
def emptyResp : Resp := ⟨none, "", none⟩

/-- `http.HandlerFunc`, state-passing style. -/
abbrev Handler := Request → Resp → Resp

/-- `type Middleware func(http.HandlerFunc) http.HandlerFunc`. -/
abbrev Middleware := Handler → Handler

/-- `type Variable struct { Name, Value string }`. -/
structure Variable where
  name : String
  value : String
deriving DecidableEq

/-- `type Route struct { Path string; Handler http.HandlerFunc; Params []Variable }`. -/
structure Route where
  path : String
  handler : Handler
  params : List Variable

/-- `type BuiltRoute struct`; the Go field `Var map[int]Variable` is keyed
by the positions `0..n-1`, modelled as the list in key order. -/
structure BuiltRoute where
  tempPath : String
  handler : Handler
  var : List Variable
  keyRoute : String
  methods : List String

/-- `type SubHandle struct { Path string; Handler http.HandlerFunc; Methods []string }`. -/
structure SubHandle where
  path : String
  handler : Handler
  methods : List String

/-- `type Router struct { routes []*Route; built []*BuiltRoute }`. -/
structure Router where
  routes : List Route
  built : List BuiltRoute

/-- The router singleton together with the external HTTP dispatch table.
Modelled from the spec: the host `net/http` mux is an external collaborator;
it dispatches an exact-path match natively and falls through to the
catch-all root handler otherwise (spec §2 control flow). -/
structure AppState where
  router : Router
  mux : List (String × Handler)

/-- `http.HandleFunc(pattern, handler)`: record a pattern registration with
the external mux (most recent first). -/
def httpHandleFunc (st : AppState) (pattern : String) (h : Handler) : AppState :=
  { st with mux := (pattern, h) :: st.mux }

/-- Exact-pattern lookup in the external mux. -/
def muxLookup (mux : List (String × Handler)) (path : String) : Option Handler :=
  (mux.find? (fun e => e.1 == path)).map (fun e => e.2)

/-! ### Methods, gate, params, middleware (src/bellt.go) -/

/-- The fixed method set used for validation (`var methods = ...`). -/
def methods : List String := ["GET", "POST", "PUT", "DELETE"]

/-- `func checkMethod(m string) bool`. -/
def checkMethod (m : String) : Bool := methods.contains m

/-- `func gateMethod(next http.HandlerFunc, methods ...string) http.HandlerFunc`. -/
def gateMethod (next : Handler) (ms : List String) : Handler :=
  fun req resp =>
    if ms.contains req.method then next req resp
    else (resp.writeHeader 404).write "\x7b\"error\": \"The method for this route doesnt exist\"\x7d"

/-- The request transformation inside `setRouteParams`: store each parameter
into the request context in order (`ctx = context.WithValue(ctx, name, value)`,
so the entry added last is found first on lookup). -/
def paramsRequest (req : Request) (params : List Variable) : Request :=
  { req with ctx := params.foldl (fun c p => (p.name, p.value) :: c) req.ctx }

/-- `func setRouteParams(next http.HandlerFunc, params []Variable) http.HandlerFunc`. -/
def setRouteParams (next : Handler) (params : List Variable) : Handler :=
  fun req resp => next (paramsRequest req params) resp

/-- `func (pr *ParamReceiver) GetVar(variable string) interface{}` reached via
`RouteVariables(r)`: look the name up in the request context; `none` models
the `nil` interface returned for a name that was never bound. -/
def GetVar (req : Request) (v : String) : Option String :=
  (req.ctx.find? (fun kv => kv.1 == v)).map (fun kv => kv.2)

/-- `func Use(handler http.HandlerFunc, middleware ...Middleware)`: the loop
walks the middleware list from the last index down to 0, rewrapping the
handler at each step. -/
def Use (handler : Handler) (middleware : List Middleware) : Handler :=
  middleware.reverse.foldl (fun h mid => mid h) handler

/-- `func healthApplication(w, r)`. -/
def healthApplication : Handler :=
  fun _ resp =>
    ((resp.setContentType "application/json").writeHeader 200).write
      "\x7b\"alive\": \"Server running\"\x7d"

/-- `func NewRouter() *Router`: fresh router; registers `/health` and the
root fallback with the external mux (the fallback is modelled structurally
in `serve`). -/
def newRouterState : AppState :=
  ⟨⟨[], []⟩, [("/health", healthApplication)]⟩

/-! ### Route template parsing and matching (src/bellt.go) -/

/-- `func getBuiltRouteParams(path string) (string, [][]string)`: the text
before the first variable marker with one leading and one trailing slash
stripped, and all marker submatches in order. -/
def getBuiltRouteParams (path : String) : String × List (String × String) :=
  (String.mk (stripEndSlash (stripStartSlash (beforeFirstVar path.toList))),
   findAllVars path.toList)

/-- `rgx.FindString(path) != ""` for the literal pattern `keyRoute`: true
iff `keyRoute` is nonempty and occurs in `path` (an empty pattern yields the
empty match, which the source treats as no match). -/
def keyFound (keyRoute path : String) : Bool :=
  keyRoute != "" && decide (2 ≤ (splitOnL path.toList keyRoute.toList).length)

/-- `strings.Split(rgx.Split(path, -1)[1], "/")`: the slash-split pieces of
the text between the first occurrence of the route key and the next
occurrence (or the end of the path). -/
def remainingSegments (path keyRoute : String) : List String :=
  (splitOnL ((splitOnL path.toList keyRoute.toList).getD 1 []) ['/']).map String.mk

/-- The loop body writing positional parameters into the shared map:
`for idx, val := range pieces { if idx != 0 { params[idx-1] = val } }`.
Map writes are modelled by prepending, so a later write shadows. -/
def writeParams (params : List (Nat × String)) (pieces : List String) : List (Nat × String) :=
  pieces.enum.foldl (fun ps iv => if iv.1 = 0 then ps else (iv.1 - 1, iv.2) :: ps) params

/-- Read of the Go map `params[k]` (zero value `""` when absent). -/
def lookupParam (ps : List (Nat × String)) (k : Nat) : String :=
  ((ps.find? (fun e => e.1 == k)).map (fun e => e.2)).getD ""

/-- One iteration of the loop in `getRequestParams`: a route whose key is
found in the path and whose between-occurrences segment count equals its
variable count overwrites the current selection and rewrites the shared
parameter map. -/
def matchStep (path : String) (acc : Option BuiltRoute × List (Nat × String))
    (route : BuiltRoute) : Option BuiltRoute × List (Nat × String) :=
  if keyFound route.keyRoute path then
    if (remainingSegments path route.keyRoute).length - 1 == route.var.length then
      (some route, writeParams acc.2 (remainingSegments path route.keyRoute))
    else acc
  else acc

/-- `func getRequestParams(path string) (*BuiltRoute, map[int]string)`:
fold the loop body over the registered templates in order. -/
def getRequestParams (built : List BuiltRoute) (path : String) :
    Option BuiltRoute × List (Nat × String) :=
  built.foldl (matchStep path) (none, [])

/-- The structural match condition a template must pass inside
`getRequestParams` to be selected. -/
def matchesBuilt (path : String) (b : BuiltRoute) : Bool :=
  keyFound b.keyRoute path &&
    ((remainingSegments path b.keyRoute).length - 1 == b.var.length)

/-! ### Registration and resolution (src/bellt.go) -/

/-- One step of the error accumulation in `func (r *Route) methods`. -/
def methodErrStep (pathStr : String) (e : Option String) (m : String) : Option String :=
  if checkMethod m then e
  else some ("Method " ++ m ++ " on " ++ pathStr ++ " not allowed")

/-- `func (r *Route) methods(methods ...string) (err error)`: validate every
declared method against the fixed set; on success register the (possibly
parameter-wrapping) gated handler with the external mux. Returns the updated
state and the error value. -/
def Route.methods (r : Route) (st : AppState) (ms : List String) : AppState × Option String :=
  match ms.foldl (methodErrStep r.path) none with
  | none =>
    if r.params.length > 0 then
      (httpHandleFunc st r.path (setRouteParams (gateMethod r.handler ms) r.params), none)
    else
      (httpHandleFunc st r.path (gateMethod r.handler ms), none)
  | some e => (st, some e)

/-- `func (r *Router) routeBuilder(...) *Route`: append the concrete route
to the static table unconditionally and return it. -/
def routeBuilder (st : AppState) (path : String) (handleFunc : Handler)
    (params : List Variable) : AppState × Route :=
  ({ st with router := { st.router with
      routes := st.router.routes ++ [⟨path, handleFunc, params⟩] } },
   ⟨path, handleFunc, params⟩)

/-- The substitution loop of `createBuiltRoute`: replace every
brace-delimited occurrence of each variable name by its value. -/
def substituteVars (path : String) (params : List Variable) : String :=
  params.foldl (fun bp p => replaceAllStr bp ("\x7b" ++ p.name ++ "\x7d") p.value) path

/-- `func (r *Router) createBuiltRoute(path, handler, methods, params)`:
build the concrete path, append it as a static route, then validate methods
and register with the mux. -/
def createBuiltRoute (st : AppState) (path : String) (handler : Handler)
    (ms : List String) (params : List Variable) : AppState :=
  let res := routeBuilder st (substituteVars path params) handler params
  (Route.methods res.2 res.1 ms).1

/-- `func (r *Router) HandleFunc(path, handleFunc, methods...)`: a path with
variable markers is appended to the built-route collection as-is; otherwise
the static route is appended only if every method validates (the error is
observed internally and not returned). -/
def HandleFunc (st : AppState) (path : String) (handleFunc : Handler)
    (ms : List String) : AppState :=
  if (getBuiltRouteParams path).2 ≠ [] then
    { st with router := { st.router with
        built := st.router.built ++
          [⟨path, handleFunc,
            (getBuiltRouteParams path).2.map (fun nm => ⟨nm.2, ""⟩),
            (getBuiltRouteParams path).1, ms⟩] } }
  else
    match (Route.methods ⟨path, handleFunc, []⟩ st ms).2 with
    | none =>
      let st1 := (Route.methods ⟨path, handleFunc, []⟩ st ms).1
      { st1 with router := { st1.router with
          routes := st1.router.routes ++ [⟨path, handleFunc, []⟩] } }
    | some _ => (Route.methods ⟨path, handleFunc, []⟩ st ms).1

/-- `func (r *Router) SubHandleFunc(path, handleFunc, methods...) *SubHandle`
(the receiver is unused by the source body). -/
def SubHandleFunc (path : String) (handleFunc : Handler) (ms : List String) : SubHandle :=
  ⟨path, handleFunc, ms⟩

/-- `func (r *Router) HandleGroup(mainPath string, sr ...*SubHandle)`:
register every sub-route under the concatenated path. -/
def HandleGroup (st : AppState) (mainPath : String) (sr : List SubHandle) : AppState :=
  sr.foldl (fun s route => HandleFunc s (mainPath ++ route.path) route.handler route.methods) st

/-- `func redirectBuiltRoute(w, r)`: resolve the path against the templates;
on a hit, bind the positional values to the variable names (the source
writes them back into the shared template and immediately reads them out;
the stored values are never read before being overwritten, so the write-back
is modelled by passing the freshly bound list onward), cache the concrete
route, and dispatch through the parameter binder and method gate; on a miss,
answer the not-found payload. -/
def redirectBuiltRoute (st : AppState) (req : Request) (resp : Resp) : AppState × Resp :=
  match (getRequestParams st.router.built req.urlPath).1 with
  | some selectedBuilt =>
    let ps := (getRequestParams st.router.built req.urlPath).2
    let allParams := selectedBuilt.var.enum.map
      (fun iv => Variable.mk iv.2.name (lookupParam ps iv.1))
    let st1 := createBuiltRoute st selectedBuilt.tempPath selectedBuilt.handler
      selectedBuilt.methods allParams
    (st1, setRouteParams (gateMethod selectedBuilt.handler selectedBuilt.methods)
      allParams req resp)
  | none =>
    (st, ((resp.setContentType "application/json").writeHeader 404).write
      "\x7b\"msg\": \"route not found\"\x7d")

/-- Modelled from the spec: the external HTTP dispatch layer serves a
request to the handler registered for its exact path, and falls through to
the catch-all `redirectBuiltRoute` handler otherwise (spec §2 control flow;
the transport itself is outside src/bellt.go). -/
def serve (st : AppState) (req : Request) : AppState × Resp :=
  match muxLookup st.mux req.urlPath with
  | some h => (st, h req emptyResp)
  | none => redirectBuiltRoute st req emptyResp

/-! ### Test fixtures: observable handlers, middlewares, concrete states -/

/-- A handler that reports the requested context variables in the body
(absent names print as a question mark), observing the parameter binder. -/
def probeVar (names : List String) : Handler :=
  fun req resp =>
    resp.write (names.foldl (fun acc n => acc ++ (GetVar req n).getD "?" ++ ";") "")

/-- A terminal handler that appends a marker to the body. -/
def traceHandler (s : String) : Handler := fun _ resp => resp.write s

/-- A middleware that appends a pre-marker on the way in and a post-marker
on the way out, making execution order observable in the body. -/
def traceMid (s : String) : Middleware := fun next => fun req resp =>
  (next req (resp.write (s ++ ".pre;"))).write (s ++ ".post;")

/-- First-some choice on selections; used to state the accumulator law of
the matcher loop. -/
def orElseOpt (a b : Option BuiltRoute) : Option BuiltRoute :=
  match a with
  | some x => some x
  | none => b

/-- Router with the template `/users/(id)` registered for GET. -/
def usersIdSt : AppState :=
  HandleFunc newRouterState "/users/\x7bid\x7d" (probeVar ["id"]) ["GET"]

/-- Router with the two-variable template `/users/(a)/(b)` registered for GET. -/
def usersTwoVarSt : AppState :=
  HandleFunc newRouterState "/users/\x7ba\x7d/\x7bb\x7d" (probeVar ["a", "b"]) ["GET"]

/-- Router with `/users/(id)` registered, probing one bound and one unbound name. -/
def usersAbsentSt : AppState :=
  HandleFunc newRouterState "/users/\x7bid\x7d" (probeVar ["id", "nope"]) ["GET"]

/-- Two templates sharing the key `users`, registered in order. -/
def cexBuiltAB : AppState :=
  HandleFunc (HandleFunc newRouterState "/users/\x7bid\x7d" (traceHandler "A;") ["GET"])
    "/users/\x7buid\x7d" (traceHandler "B;") ["GET"]

def getUsersReq : Request := ⟨"GET", "/users/42", []⟩

/-- State after serving `/users/42` once against `usersIdSt`. -/
def c7St1 : AppState := (serve usersIdSt getUsersReq).1

/-- State after serving `/users/42` twice against `usersIdSt`. -/
def c7St2 : AppState := (serve c7St1 getUsersReq).1

/-- Template `/users/(id)` registered with the invalid method name PATCH. -/
def badMethodSt : AppState :=
  HandleFunc newRouterState "/users/\x7bid\x7d" (probeVar ["id"]) ["PATCH"]

def badMethodReq : Request := ⟨"PATCH", "/users/42", []⟩

def badMethodSt1 : AppState := (serve badMethodSt badMethodReq).1

def badMethodSt2 : AppState := (serve badMethodSt1 badMethodReq).1

/-- Template whose very first segment is a variable (empty key). -/
def emptyKeySt : AppState :=
  HandleFunc newRouterState "/\x7bid\x7d" (probeVar ["id"]) ["GET"]

/-- Auxiliary registered template used to instantiate the matcher lemmas. -/
def c8WitSt : AppState :=
  HandleFunc newRouterState "/w/\x7bx\x7d" (probeVar ["x"]) ["GET"]

/-! ### Helper lemmas -/

theorem matchStep_fst (path : String) (acc : Option BuiltRoute × List (Nat × String))
    (route : BuiltRoute) :
    (matchStep path acc route).1 = if matchesBuilt path route then some route else acc.1 := by
  unfold matchStep matchesBuilt
  by_cases h1 : keyFound route.keyRoute path = true
  · by_cases h2 : ((remainingSegments path route.keyRoute).length - 1 == route.var.length) = true
    · simp [h1, h2]
    · simp [h1, h2]
  · simp [h1]

theorem foldl_matchStep_fst (path : String) (l : List BuiltRoute) :
    ∀ acc : Option BuiltRoute × List (Nat × String),
      (l.foldl (matchStep path) acc).1
        = orElseOpt ((l.filter (matchesBuilt path)).getLast?) acc.1 := by
  induction l with
  | nil => intro acc; rfl
  | cons b t ih =>
    intro acc
    rw [List.foldl_cons, ih, List.filter_cons]
    by_cases hb : matchesBuilt path b = true
    · rw [if_pos hb]
      have hstep : (matchStep path acc b).1 = some b := by
        rw [matchStep_fst, if_pos hb]
      rw [hstep]
      cases hft : t.filter (matchesBuilt path) with
      | nil => rfl
      | cons x xs =>
        rw [List.getLast?_cons_cons]
        cases hgl : (x :: xs).getLast? with
        | none => exact absurd (List.getLast?_eq_none_iff.mp hgl) (List.cons_ne_nil x xs)
        | some z => rfl
    · rw [if_neg hb]
      have hstep : (matchStep path acc b).1 = acc.1 := by
        rw [matchStep_fst, if_neg hb]
      rw [hstep]

theorem getRequestParams_fst (built : List BuiltRoute) (path : String) :
    (getRequestParams built path).1 = (built.filter (matchesBuilt path)).getLast? := by
  rw [getRequestParams, foldl_matchStep_fst]
  cases (built.filter (matchesBuilt path)).getLast? <;> rfl

theorem sel_matchesBuilt (built : List BuiltRoute) (path : String) (b : BuiltRoute)
    (h : (getRequestParams built path).1 = some b) : matchesBuilt path b = true := by
  rw [getRequestParams_fst] at h
  exact (List.mem_filter.mp (List.mem_of_getLast?_eq_some h)).2

theorem foldl_ctx_prepend (params : List Variable) :
    ∀ init : List (String × String),
      params.foldl (fun c p => (p.name, p.value) :: c) init
        = (params.map (fun p => (p.name, p.value))).reverse ++ init := by
  induction params with
  | nil => intro init; simp
  | cons p t ih => intro init; simp [List.foldl_cons, ih]

theorem foldl_methodErrStep_none (pathStr : String) (ms : List String) :
    ∀ acc : Option String,
      ms.foldl (methodErrStep pathStr) acc = none →
        acc = none ∧ ∀ m ∈ ms, checkMethod m = true := by
  induction ms with
  | nil =>
    intro acc h
    exact ⟨h, by intro m hm; exact absurd hm (List.not_mem_nil m)⟩
  | cons m t ih =>
    intro acc h
    rw [List.foldl_cons] at h
    obtain ⟨hstep, hall⟩ := ih _ h
    by_cases hc : checkMethod m = true
    · refine ⟨?_, ?_⟩
      · simp only [methodErrStep, if_pos hc] at hstep
        exact hstep
      · intro x hx
        rcases List.mem_cons.mp hx with hx1 | hx2
        · rw [hx1]; exact hc
        · exact hall x hx2
    · exfalso
      simp only [methodErrStep, if_neg hc] at hstep
      exact Option.some_ne_none _ hstep

theorem foldl_methodErrStep_ne_none (pathStr : String) (ms : List String) (m : String)
    (hmem : m ∈ ms) (hbad : checkMethod m = false) :
    ms.foldl (methodErrStep pathStr) none ≠ none := by
  intro hnone
  have hval := (foldl_methodErrStep_none pathStr ms none hnone).2 m hmem
  rw [hbad] at hval
  exact Bool.false_ne_true hval

theorem Route.methods_err (r : Route) (st : AppState) (ms : List String) (e : String)
    (he : ms.foldl (methodErrStep r.path) none = some e) :
    Route.methods r st ms = (st, some e) := by
  unfold Route.methods
  rw [he]

/-! ### Claim theorems -/

/-- Claim C1, counterexample: composing `Use h [mw1, mw2]` executes mw1's
pre-logic first and mw1's post-logic last — the first-listed middleware is
outermost, not the last-listed one as the claim states. -/
theorem use_last_outermost_cex :
    ((Use (traceHandler "h;") [traceMid "mw1", traceMid "mw2"]) ⟨"GET", "/", []⟩ emptyResp).body
        = "mw1.pre;mw2.pre;h;mw2.post;mw1.post;"
    ∧ ((Use (traceHandler "h;") [traceMid "mw1", traceMid "mw2"]) ⟨"GET", "/", []⟩ emptyResp).body
        ≠ "mw2.pre;mw1.pre;h;mw1.post;mw2.post;" := by
  exact ⟨rfl, by decide⟩

/-- Claim C1, amended: `Use` composes the middlewares so that the
first-listed middleware is outermost — `Use h (mid :: rest)` is `mid`
wrapped around the composition of the rest; for `[mw1, mw2]` execution is
mw1 pre, mw2 pre, handler, mw2 post, mw1 post. -/
theorem use_first_listed_outermost :
    (∀ (handler : Handler) (mid : Middleware) (rest : List Middleware),
        Use handler (mid :: rest) = mid (Use handler rest))
    ∧ ((Use (traceHandler "h;") [traceMid "mw1", traceMid "mw2"]) ⟨"GET", "/", []⟩ emptyResp).body
        = "mw1.pre;mw2.pre;h;mw2.post;mw1.post;" := by
  constructor
  · intro handler mid rest
    unfold Use
    rw [List.reverse_cons, List.foldl_append]
    rfl
  · rfl

/-- Claim C2, counterexample: with the templates `/users/(id)` then
`/users/(uid)` registered in that order, both structurally match
`/users/42`, and the matcher selects the second-registered template, not
the first-registered one as the claim states. -/
theorem first_registered_wins_cex :
    ((getRequestParams cexBuiltAB.router.built "/users/42").1.map BuiltRoute.tempPath)
        = some "/users/\x7buid\x7d"
    ∧ ((getRequestParams cexBuiltAB.router.built "/users/42").1.map BuiltRoute.tempPath)
        ≠ some "/users/\x7bid\x7d" := by
  exact ⟨rfl, by decide⟩

/-- Claim C2, amended: the matcher is deterministic, but the loop in
`getRequestParams` overwrites the selection on every structural match, so
the **last**-registered matching template is selected: the selection equals
the last element of the registration-ordered list filtered by the
structural match condition. -/
theorem matcher_selects_last_registered (built : List BuiltRoute) (path : String) :
    (getRequestParams built path).1 = (built.filter (matchesBuilt path)).getLast? :=
  getRequestParams_fst built path

/-- Claim C3: a selected template always satisfies the structural condition
that the number of slash-delimited segments remaining after the matched key
(as the source counts them) equals the declared variable count; and the
mismatching request `/users/42/extra` against template `/users/(id)` yields
the 404 route-not-found response. -/
theorem match_requires_exact_segment_count :
    (∀ (built : List BuiltRoute) (path : String) (b : BuiltRoute),
        (getRequestParams built path).1 = some b →
        (remainingSegments path b.keyRoute).length - 1 = b.var.length)
    ∧ (serve usersIdSt ⟨"GET", "/users/42/extra", []⟩).2
        = ⟨some 404, "\x7b\"msg\": \"route not found\"\x7d", some "application/json"⟩ := by
  constructor
  · intro built path b h
    have hm := sel_matchesBuilt built path b h
    simp [matchesBuilt] at hm
    exact hm.2
  · decide

theorem match_requires_exact_segment_count_witness :
    (remainingSegments "/users/42" "users").length - 1 = 1 := by
  have hsel : (getRequestParams usersIdSt.router.built "/users/42").1
      = some ⟨"/users/\x7bid\x7d", probeVar ["id"], [⟨"id", ""⟩], "users", ["GET"]⟩ := rfl
  exact match_requires_exact_segment_count.1 _ _ _ hsel

/-- Claim C4: the parameter binder stores the resolved pairs in the request
context (most recent first, hence the reversed map prepended to the existing
chain); the accessor returns `none` for a name never bound; and concretely,
GET `/users/42` against `/users/(id)` invokes the handler with
`GetVar "id" = "42"`, two variables bind positionally, and an unbound name
reads as absent. -/
theorem params_bound_positionally :
    (∀ (req : Request) (params : List Variable),
        (paramsRequest req params).ctx
          = (params.map (fun p => (p.name, p.value))).reverse ++ req.ctx)
    ∧ (∀ (req : Request) (n : String),
        (∀ kv ∈ req.ctx, kv.1 ≠ n) → GetVar req n = none)
    ∧ (serve usersIdSt ⟨"GET", "/users/42", []⟩).2 = ⟨some 200, "42;", none⟩
    ∧ (serve usersTwoVarSt ⟨"GET", "/users/7/9", []⟩).2 = ⟨some 200, "7;9;", none⟩
    ∧ (serve usersAbsentSt ⟨"GET", "/users/42", []⟩).2 = ⟨some 200, "42;?;", none⟩ := by
  refine ⟨?_, ?_, by decide, by decide, by decide⟩
  · intro req params
    simp only [paramsRequest]
    exact foldl_ctx_prepend params req.ctx
  · intro req n h
    unfold GetVar
    rw [List.find?_eq_none.mpr]
    · rfl
    · intro kv hkv
      simp only [beq_iff_eq]
      exact h kv hkv

theorem params_bound_positionally_witness :
    GetVar ⟨"GET", "/x", [("a", "1")]⟩ "b" = none :=
  params_bound_positionally.2.1 _ _ (by decide)

/-- Claim C5: registering a static path with any method outside the fixed
allowed set leaves the application state completely unchanged — the route is
not appended, nothing is registered with the mux, and `HandleFunc` returns
no error to the caller (its return type carries none). -/
theorem invalid_method_drops_static_route (st : AppState) (path : String) (hd : Handler)
    (ms : List String) (m : String) (hmem : m ∈ ms) (hbad : checkMethod m = false)
    (hstatic : (getBuiltRouteParams path).2 = []) :
    HandleFunc st path hd ms = st := by
  obtain ⟨e, he⟩ := Option.ne_none_iff_exists'.mp
    (foldl_methodErrStep_ne_none path ms m hmem hbad)
  have hrm : Route.methods ⟨path, hd, []⟩ st ms = (st, some e) :=
    Route.methods_err ⟨path, hd, []⟩ st ms e he
  unfold HandleFunc
  rw [if_neg (by simp [hstatic])]
  rw [hrm]

theorem invalid_method_drops_static_route_witness :
    ("PATCH" ∈ ["PATCH"])
    ∧ HandleFunc newRouterState "/static" (probeVar []) ["PATCH"] = newRouterState :=
  ⟨by decide,
   invalid_method_drops_static_route newRouterState "/static" (probeVar []) ["PATCH"]
     "PATCH" (by decide) (by decide) (by decide)⟩

/-- Claim C6: a request matching no mux entry and no template receives
status 404 with the route-not-found JSON body; a gated route whose declared
methods exclude the request's method answers status 404 with the
method-mismatch JSON body, both in general and through the full pipeline
for POST `/users/42` against `/users/(id)` declared for GET. -/
theorem not_found_and_method_mismatch_responses :
    (∀ (st : AppState) (req : Request),
        muxLookup st.mux req.urlPath = none →
        (getRequestParams st.router.built req.urlPath).1 = none →
        (serve st req).2
          = ⟨some 404, "\x7b\"msg\": \"route not found\"\x7d", some "application/json"⟩)
    ∧ (∀ (next : Handler) (ms : List String) (req : Request),
        ms.contains req.method = false →
        gateMethod next ms req emptyResp
          = ⟨some 404, "\x7b\"error\": \"The method for this route doesnt exist\"\x7d", none⟩)
    ∧ (serve usersIdSt ⟨"POST", "/users/42", []⟩).2
        = ⟨some 404, "\x7b\"error\": \"The method for this route doesnt exist\"\x7d", none⟩ := by
  refine ⟨?_, ?_, by decide⟩
  · intro st req h1 h2
    simp only [serve, h1, redirectBuiltRoute, h2]
    rfl
  · intro next ms req h
    simp only [gateMethod, h]
    rfl

theorem not_found_and_method_mismatch_responses_witness :
    gateMethod (probeVar ["id"]) ["GET"] ⟨"POST", "/users/42", []⟩ emptyResp
      = ⟨some 404, "\x7b\"error\": \"The method for this route doesnt exist\"\x7d", none⟩ :=
  not_found_and_method_mismatch_responses.2.1 _ _ _ (by decide)

/-- Claim C7, counterexample: with the template `/users/(id)` registered
under the invalid method name PATCH, resolution never registers the concrete
path with the mux, so serving `/users/42` twice appends two identical
entries to the static route table — the table is not duplicate-free. -/
theorem resolve_twice_duplicates_table_cex :
    badMethodSt1.router.routes.map Route.path = ["/users/42"]
    ∧ badMethodSt2.router.routes.map Route.path = ["/users/42", "/users/42"]
    ∧ ¬ (badMethodSt2.router.routes.map Route.path).Nodup := by
  exact ⟨rfl, rfl, by decide⟩

/-- Claim C7, amended: a request whose exact path is already registered with
the mux is served without touching the router state, so when the template's
declared methods are all valid the first resolution caches the concrete
route and a second identical request leaves the table unchanged and
duplicate-free; only a template with an invalid declared method re-resolves
and duplicates (see the counterexample). -/
theorem resolved_route_cached_no_duplicate :
    (∀ (st : AppState) (req : Request) (hh : Handler),
        muxLookup st.mux req.urlPath = some hh → (serve st req).1 = st)
    ∧ c7St1.router.routes.map Route.path = ["/users/42"]
    ∧ c7St2 = c7St1
    ∧ (c7St2.router.routes.map Route.path).Nodup := by
  have hcache : ∀ (st : AppState) (req : Request) (hh : Handler),
      muxLookup st.mux req.urlPath = some hh → (serve st req).1 = st := by
    intro st req hh hmux
    simp only [serve, hmux]
  refine ⟨hcache, rfl, ?_, by decide⟩
  obtain ⟨hh, hmux⟩ := Option.isSome_iff_exists.mp
    (by decide : (muxLookup c7St1.mux getUsersReq.urlPath).isSome = true)
  exact hcache c7St1 getUsersReq hh hmux

theorem resolved_route_cached_no_duplicate_witness :
    (serve c7St1 getUsersReq).1 = c7St1 := by
  obtain ⟨hh, hmux⟩ := Option.isSome_iff_exists.mp
    (by decide : (muxLookup c7St1.mux getUsersReq.urlPath).isSome = true)
  exact resolved_route_cached_no_duplicate.1 c7St1 getUsersReq hh hmux

/-- Claim C8, counterexample: the template `/(id)` parses to the empty key
(registered as such), but a request for `/42` is answered with the 404
route-not-found payload instead of reaching the handler — matching does not
work when the prefix is empty, because the source treats the empty regex
match as no match. -/
theorem empty_key_matching_works_cex :
    emptyKeySt.router.built.map BuiltRoute.keyRoute = [""]
    ∧ (serve emptyKeySt ⟨"GET", "/42", []⟩).2
        = ⟨some 404, "\x7b\"msg\": \"route not found\"\x7d", some "application/json"⟩ := by
  exact ⟨rfl, by decide⟩

/-- Claim C8, amended: the parser yields the literal substring before the
first variable marker with leading/trailing slash stripped together with
the ordered marker list (shown on the spec's example paths), and a template
whose very first segment is a variable gets the empty-string key — but such
a template can never be selected by the matcher: every selected template
has a nonempty key. -/
theorem parser_and_empty_key_never_matches :
    getBuiltRouteParams "/users/\x7bid\x7d/posts/\x7bpostId\x7d"
        = ("users", [("\x7bid\x7d", "id"), ("\x7bpostId\x7d", "postId")])
    ∧ getBuiltRouteParams "/\x7bid\x7d" = ("", [("\x7bid\x7d", "id")])
    ∧ (∀ (built : List BuiltRoute) (path : String) (b : BuiltRoute),
        (getRequestParams built path).1 = some b → b.keyRoute ≠ "") := by
  refine ⟨by decide, by decide, ?_⟩
  intro built path b h
  have hm := sel_matchesBuilt built path b h
  simp [matchesBuilt, keyFound] at hm
  exact hm.1.1

theorem parser_and_empty_key_never_matches_witness :
    ("w" : String) ≠ "" := by
  have hsel : (getRequestParams c8WitSt.router.built "/w/9").1
      = some ⟨"/w/\x7bx\x7d", probeVar ["x"], [⟨"x", ""⟩], "w", ["GET"]⟩ := rfl
  exact parser_and_empty_key_never_matches.2.2 _ _ _ hsel

/-- Claim C9: registering through the grouping helper with shared prefix
`mainPath` and a sub-route for `subPath` is definitionally the direct
registration of the concatenated path with the same handler and methods. -/
theorem handle_group_concatenates (st : AppState) (mainPath subPath : String)
    (hd : Handler) (ms : List String) :
    HandleGroup st mainPath [SubHandleFunc subPath hd ms]
      = HandleFunc st (mainPath ++ subPath) hd ms := rfl

theorem handle_group_concatenates_witness :
    HandleGroup newRouterState "/api" [SubHandleFunc "/users" (probeVar []) ["GET"]]
      = HandleFunc newRouterState "/api/users" (probeVar []) ["GET"] :=
  handle_group_concatenates newRouterState "/api" "/users" (probeVar []) ["GET"]

/-- Claim C10: a path containing a variable marker is appended to the
built-route collection unconditionally — for every methods list, valid or
not, the state changes exactly by that appended template (no method
validation, static table and mux untouched); the methods are checked only
at resolution time: resolving with an invalid declared method still appends
the concrete route to the static table but registers nothing with the mux. -/
theorem templated_route_skips_method_validation :
    (∀ (st : AppState) (path : String) (hd : Handler) (ms : List String),
        (getBuiltRouteParams path).2 ≠ [] →
        HandleFunc st path hd ms
          = { st with router := { st.router with
              built := st.router.built ++
                [⟨path, hd, (getBuiltRouteParams path).2.map (fun nm => ⟨nm.2, ""⟩),
                  (getBuiltRouteParams path).1, ms⟩] } })
    ∧ (∀ (st : AppState) (path : String) (hd : Handler) (ms : List String)
          (params : List Variable) (m : String),
        m ∈ ms → checkMethod m = false →
        (createBuiltRoute st path hd ms params).mux = st.mux
        ∧ (createBuiltRoute st path hd ms params).router.routes
            = st.router.routes ++ [⟨substituteVars path params, hd, params⟩]) := by
  constructor
  · intro st path hd ms hv
    unfold HandleFunc
    rw [if_pos hv]
  · intro st path hd ms params m hmem hbad
    obtain ⟨e, he⟩ := Option.ne_none_iff_exists'.mp
      (foldl_methodErrStep_ne_none (substituteVars path params) ms m hmem hbad)
    have hrm : Route.methods ⟨substituteVars path params, hd, params⟩
        { st with router := { st.router with
            routes := st.router.routes ++ [⟨substituteVars path params, hd, params⟩] } } ms
        = ({ st with router := { st.router with
            routes := st.router.routes ++ [⟨substituteVars path params, hd, params⟩] } },
           some e) :=
      Route.methods_err _ _ ms e he
    simp only [createBuiltRoute, routeBuilder]
    rw [hrm]
    exact ⟨rfl, rfl⟩

theorem templated_route_skips_method_validation_witness :
    (HandleFunc newRouterState "/t/\x7bv\x7d" (probeVar ["v"]) ["TRACE"]).router.built.map
        BuiltRoute.tempPath = ["/t/\x7bv\x7d"] := by
  rw [templated_route_skips_method_validation.1 newRouterState "/t/\x7bv\x7d"
      (probeVar ["v"]) ["TRACE"] (by decide)]
  rfl

end Bellt
